import Mathlib

/-!
Verification of the Enrollment & Attempt Consistency Engine of the Zedny
educational platform backend.  The relational state (spec §3) is embedded
shallowly: each table is a list of rows, each endpoint of
`app/api/v1/endpoints/{courses,quizzes,admin}.py` becomes a pure function
from a `DB` state (plus the authenticated caller and a clock value) to an
`Except ApiError` result.  Monetary-free numeric fields follow the source:
integer columns become `Int`/`Nat`, the float column `progress_percent`
and derived percentage statistics are modelled over `ℚ`.
-/

namespace Zedny

/-- `UserRole` enum from `app/models/user.py` (STUDENT/TEACHER/SUPER_ADMIN
plus the legacy ADMIN member). -/
inductive UserRole where
  | STUDENT
  | TEACHER
  | SUPER_ADMIN
  | ADMIN
deriving DecidableEq, Repr

/-- `CourseStatus` enum from `app/models/course.py`. -/
inductive CourseStatus where
  | PUBLISHED
  | DRAFT
  | PRIVATE
deriving DecidableEq, Repr

/-- `EnrollmentStatus` enum from `app/models/course.py`. -/
inductive EnrollmentStatus where
  | ACTIVE
  | COMPLETED
  | DROPPED
deriving DecidableEq, Repr

/-- `LessonStatus` enum from `app/models/course.py`. -/
inductive LessonStatus where
  | NOT_STARTED
  | IN_PROGRESS
  | COMPLETED
deriving DecidableEq, Repr

/-- Row of the `users` table (`app/models/user.py`); only the columns the
claims touch are carried. -/
structure User where
  id : Nat
  role : UserRole
deriving DecidableEq, Repr

/-- Row of `quizzes` (`app/models/quiz.py`). -/
structure Quiz where
  id : Nat
  teacherId : Nat
  accessCode : String
deriving DecidableEq, Repr

/-- Row of `questions` (`app/models/quiz.py`). -/
structure Question where
  id : Nat
  quizId : Nat
deriving DecidableEq, Repr

/-- Row of `choices` (`app/models/quiz.py`). -/
structure Choice where
  id : Nat
  questionId : Nat
deriving DecidableEq, Repr

/-- Row of `quiz_attempts`.  Modelled from the spec: the `QuizAttempt`
model class is exported by `app/models/__init__.py` but its definition is
missing from the sources; columns are those used by the endpoints in
`quizzes.py`/`admin.py` and by spec §3 (quiz reference, user reference,
score, total_questions, correct_answers, rank, completion timestamp). -/
structure QuizAttempt where
  id : Nat
  quizId : Nat
  userId : Nat
  score : Int
  totalQuestions : Int
  correctAnswers : Int
  rank : Option String
  completedAt : Nat
deriving DecidableEq, Repr

/-- Row of `quiz_participations`.  Modelled from the spec: the
`QuizParticipation` model class is missing from the sources; spec §3
gives it a quiz reference and a user reference (duplicates allowed). -/
structure QuizParticipation where
  id : Nat
  quizId : Nat
  userId : Nat
deriving DecidableEq, Repr

/-- Row of `courses` (`app/models/course.py`). -/
structure Course where
  id : Nat
  teacherId : Nat
  status : CourseStatus
  accessCode : Option String
deriving DecidableEq, Repr

/-- Row of `lessons` (`app/models/course.py`). -/
structure Lesson where
  id : Nat
  courseId : Nat
  linkedQuizId : Option Nat
  quizCode : Option String
deriving DecidableEq, Repr

/-- Row of `enrollments` (`app/models/course.py`). -/
structure Enrollment where
  id : Nat
  userId : Nat
  courseId : Nat
  status : EnrollmentStatus
  progressPercent : ℚ
  enrolledAt : Nat
  completedAt : Option Nat
deriving DecidableEq, Repr

/-- Row of `lesson_progress` (`app/models/course.py`). -/
structure LessonProgress where
  id : Nat
  enrollmentId : Nat
  lessonId : Nat
  status : LessonStatus
  timeSpentSeconds : Int
  startedAt : Option Nat
  completedAt : Option Nat
deriving DecidableEq, Repr

/-- Row of `community_messages` (`app/models/course.py`). -/
structure CommunityMessage where
  id : Nat
  userId : Nat
  courseId : Nat
deriving DecidableEq, Repr

/-- Row of `course_feedback` (`app/models/course.py`). -/
structure CourseFeedback where
  id : Nat
  userId : Nat
  courseId : Nat
deriving DecidableEq, Repr

/-- The relational store restricted to the tables of spec §3. -/
structure DB where
  users : List User
  quizzes : List Quiz
  questions : List Question
  choices : List Choice
  attempts : List QuizAttempt
  participations : List QuizParticipation
  courses : List Course
  lessons : List Lesson
  enrollments : List Enrollment
  lessonProgress : List LessonProgress
  messages : List CommunityMessage
  feedback : List CourseFeedback
deriving DecidableEq, Repr

/-- Error outcomes of the endpoints, tagged with the HTTP class the source
raises (`HTTPException(status_code=..., detail=...)`); `internal` also
covers storage-layer failures that surface as a generic 500. -/
inductive ApiError where
  | notFound (detail : String)
  | forbidden (detail : String)
  | badRequest (detail : String)
  | validation (detail : String)
  | internal (detail : String)
deriving DecidableEq, Repr

/-- HTTP status code of each error class. -/
def ApiError.statusCode : ApiError → Nat
  | .notFound _ => 404
  | .forbidden _ => 403
  | .badRequest _ => 400
  | .validation _ => 422
  | .internal _ => 500

instance exceptDecEq {ε α : Type} [DecidableEq ε] [DecidableEq α] :
    DecidableEq (Except ε α) := fun x y =>
  match x, y with
  | .ok a, .ok b => if h : a = b then isTrue (by rw [h]) else isFalse (by simp [h])
  | .error a, .error b => if h : a = b then isTrue (by rw [h]) else isFalse (by simp [h])
  | .ok _, .error _ => isFalse (by simp)
  | .error _, .ok _ => isFalse (by simp)

/-! ## Code Allocator (quizzes.py lines 173-191, courses.py lines 131-148)

Randomness is abstracted as a draw stream `draws : Nat → String`
(successive outputs of `generate_access_code`), and the uniqueness read
against the store as a predicate `taken : String → Bool`. -/

/-- The quiz allocation loop of `create_quiz`: `attempts = 0;
while attempts < max_attempts: if free: break; redraw; attempts += 1`.
The Python counter ascends to the bound 10; here the structurally
decreasing `remaining = 10 - attempts` drives the recursion and the
ascending `attempts` is carried along unchanged in meaning.  Returns the
final `(attempts, access_code)` pair when the loop exits. -/
def quizAllocGo (taken : String → Bool) (draws : Nat → String) :
    Nat → Nat → String → Nat × String
  | attempts, 0, code => (attempts, code)
  | attempts, remaining + 1, code =>
    if taken code then quizAllocGo taken draws (attempts + 1) remaining (draws (attempts + 1))
    else (attempts, code)

/-- `create_quiz`'s allocation: run the bounded loop starting from the
first draw, then `if attempts >= max_attempts: raise HTTP 500`. -/
def allocateQuizCode (taken : String → Bool) (draws : Nat → String) : Except ApiError String :=
  let r := quizAllocGo taken draws 0 10 (draws 0)
  if 10 ≤ r.1 then .error (.internal "Failed to generate a unique access code")
  else .ok r.2

/-- `create_course`'s allocation loop: `while True: if free: break; redraw`.
The source loop has no attempt bound, so it is modelled with explicit
fuel; `none` means the loop has not returned after `fuel` uniqueness
checks (it is still running). -/
def courseAllocGo (taken : String → Bool) (draws : Nat → String) :
    Nat → Nat → Option String
  | _, 0 => none
  | idx, fuel + 1 =>
    if taken (draws idx) then courseAllocGo taken draws (idx + 1) fuel
    else some (draws idx)

/-! ## Attempt Recorder (quizzes.py) -/

/-- SQL `SUM` aggregate: `NULL` (here `none`) on an empty row set. -/
def sqlSumInt (l : List Int) : Option Int :=
  if l = [] then none else some l.sum

/-- The join `QuizAttempt JOIN Quiz ON quiz_id WHERE Quiz.teacher_id = t`
used by `get_teacher_stats`: attempts on quizzes the teacher owns. -/
def teacherAttempts (db : DB) (teacherId : Nat) : List QuizAttempt :=
  db.attempts.filter fun a =>
    db.quizzes.any fun q => decide (q.id = a.quizId ∧ q.teacherId = teacherId)

/-- `comp_rate` of `get_teacher_stats` (quizzes.py lines 351-353):
`(res[0] / res[1] * 100) if res and res[1] and res[1] > 0 else 0.0`,
where `res` holds `SUM(correct_answers)` and `SUM(total_questions)`. -/
def teacherAvgCompletionRate (db : DB) (teacherId : Nat) : ℚ :=
  let rows := teacherAttempts db teacherId
  match sqlSumInt (rows.map (·.correctAnswers)), sqlSumInt (rows.map (·.totalQuestions)) with
  | some c, some t => if 0 < t then (c : ℚ) / (t : ℚ) * 100 else 0
  | _, _ => 0

/-- Modelled from the spec (§4.4): the pooled completion ratio in the
spec's own words — `sum(correct_answers)/sum(total_questions) * 100`
across all matching attempts, 0 when there are none or the summed
total is 0.  Used as the reference point for the refinement claim. -/
def specPooledCompletionRate (attempts : List QuizAttempt) : ℚ :=
  let c : Int := (attempts.map (·.correctAnswers)).sum
  let t : Int := (attempts.map (·.totalQuestions)).sum
  if 0 < t then (c : ℚ) / (t : ℚ) * 100 else 0

/-- The rejected alternative reading named by the spec: the arithmetic
mean of per-attempt percentages (zero-denominator attempts count 0). -/
def specMeanOfPerAttemptRates (attempts : List QuizAttempt) : ℚ :=
  if attempts = [] then 0
  else (attempts.map fun a =>
    if 0 < a.totalQuestions then (a.correctAnswers : ℚ) / (a.totalQuestions : ℚ) * 100 else 0).sum
    / (attempts.length : ℚ)

/-- Request body of `POST /{quiz_id}/attempts` (`QuizAttemptCreate` in
schemas/quiz.py lines 104-112): plain integer fields, no validators. -/
structure QuizAttemptCreate where
  quizId : Nat
  score : Int
  totalQuestions : Int
  correctAnswers : Int
  rank : Option String
deriving DecidableEq, Repr

/-- Fresh primary key for an inserted attempt row. -/
def freshAttemptId (db : DB) : Nat :=
  (db.attempts.map (·.id)).foldr max 0 + 1

/-- The storage check constraints on `quiz_attempts` added by migration
c3d4e5f6g7h8: `score >= 0` and `0 <= correct_answers <= total_questions`. -/
def attemptRowOk (a : QuizAttempt) : Prop :=
  0 ≤ a.score ∧ 0 ≤ a.correctAnswers ∧ a.correctAnswers ≤ a.totalQuestions

instance (a : QuizAttempt) : Decidable (attemptRowOk a) := by
  unfold attemptRowOk; infer_instance

/-- `create_quiz_attempt` (quizzes.py lines 520-540): builds the row from
the request with no validation and commits.  A row violating the storage
check constraints makes the commit fail; the resulting IntegrityError is
unhandled and surfaces as a generic 500. -/
def createQuizAttempt (db : DB) (cur : User) (quizId : Nat) (inp : QuizAttemptCreate)
    (now : Nat) : Except ApiError (DB × QuizAttempt) :=
  let row : QuizAttempt :=
    { id := freshAttemptId db, quizId := quizId, userId := cur.id, score := inp.score,
      totalQuestions := inp.totalQuestions, correctAnswers := inp.correctAnswers,
      rank := inp.rank, completedAt := now }
  if attemptRowOk row then
    .ok ({ db with attempts := db.attempts ++ [row] }, row)
  else
    .error (.internal "IntegrityError: quiz_attempts check constraint violated")

/-! ## Deletion endpoints for a single Quiz / Course -/

/-- ORM effect of `db.delete(quiz)`: the relationships declared on `Quiz`
in models/quiz.py cascade only `questions` (and each `Question` its
`choices`).  Modelled from the spec for the rest: the `QuizAttempt` /
`QuizParticipation` model classes are missing from the sources and spec
§3/§4.5 state those rows are *not* reachable via ORM-declared cascades,
so they are left in place, as are `Lesson.linked_quiz_id`/`quiz_code`. -/
def dbDeleteQuizOrm (db : DB) (quizId : Nat) : DB :=
  let qids := (db.questions.filter fun q => decide (q.quizId = quizId)).map (·.id)
  { db with
    quizzes := db.quizzes.filter fun q => decide (q.id ≠ quizId),
    questions := db.questions.filter fun q => decide (q.quizId ≠ quizId),
    choices := db.choices.filter fun c => decide (c.questionId ∉ qids) }

/-- Guard of the owner quiz-deletion endpoint (quizzes.py lines 436-437):
rejected unless the caller owns the quiz or has the legacy ADMIN role. -/
def quizDeleteRejected (cur : User) (quiz : Quiz) : Prop :=
  quiz.teacherId ≠ cur.id ∧ cur.role ≠ UserRole.ADMIN

instance (cur : User) (quiz : Quiz) : Decidable (quizDeleteRejected cur quiz) := by
  unfold quizDeleteRejected; infer_instance

/-- Shared owner guard of the course operations update/delete/lessons/
stats (courses.py): rejected unless the caller owns the course or is a
SUPER_ADMIN. -/
def courseOwnerRejected (cur : User) (course : Course) : Prop :=
  course.teacherId ≠ cur.id ∧ cur.role ≠ UserRole.SUPER_ADMIN

instance (cur : User) (course : Course) : Decidable (courseOwnerRejected cur course) := by
  unfold courseOwnerRejected; infer_instance

/-- `DELETE /quizzes/{quiz_id}` (quizzes.py lines 422-440). -/
def deleteQuiz (db : DB) (cur : User) (quizId : Nat) : Except ApiError DB :=
  match db.quizzes.find? (fun q => decide (q.id = quizId)) with
  | none => .error (.notFound "Quiz not found")
  | some quiz =>
    if quizDeleteRejected cur quiz then
      .error (.forbidden "Not authorized to delete this quiz")
    else .ok (dbDeleteQuizOrm db quizId)

/-- `DELETE /admin/quizzes/{quiz_id}` (admin.py lines 172-188), behind the
`get_current_active_superuser` dependency (deps.py). -/
def adminDeleteQuiz (db : DB) (cur : User) (quizId : Nat) : Except ApiError DB :=
  if cur.role ≠ UserRole.SUPER_ADMIN then
    .error (.forbidden "The user doesn't have enough privileges")
  else
    match db.quizzes.find? (fun q => decide (q.id = quizId)) with
    | none => .error (.notFound "Quiz not found")
    | some _ => .ok (dbDeleteQuizOrm db quizId)

/-- ORM effect of `db.delete(course)`: the relationships declared on
`Course` in models/course.py cascade `lessons` (each lesson its
`progress_records`), `enrollments` (each its `lesson_progress`),
`community_messages` and `feedback`. -/
def dbDeleteCourseOrm (db : DB) (courseId : Nat) : DB :=
  let lessonIds := (db.lessons.filter fun l => decide (l.courseId = courseId)).map (·.id)
  let enrIds := (db.enrollments.filter fun e => decide (e.courseId = courseId)).map (·.id)
  { db with
    courses := db.courses.filter fun c => decide (c.id ≠ courseId),
    lessons := db.lessons.filter fun l => decide (l.courseId ≠ courseId),
    enrollments := db.enrollments.filter fun e => decide (e.courseId ≠ courseId),
    lessonProgress := db.lessonProgress.filter (fun lp => decide (lp.lessonId ∉ lessonIds ∧ lp.enrollmentId ∉ enrIds)),
    messages := db.messages.filter fun m => decide (m.courseId ≠ courseId),
    feedback := db.feedback.filter fun f => decide (f.courseId ≠ courseId) }

/-- `DELETE /courses/{course_id}` (courses.py lines 331-346). -/
def deleteCourse (db : DB) (cur : User) (courseId : Nat) : Except ApiError DB :=
  match db.courses.find? (fun c => decide (c.id = courseId)) with
  | none => .error (.notFound "Course not found")
  | some course =>
    if courseOwnerRejected cur course then .error (.forbidden "Not authorized")
    else .ok (dbDeleteCourseOrm db courseId)

/-! ## Enrollment Manager (courses.py lines 408-463) -/

/-- Fresh primary key for an inserted enrollment row. -/
def freshEnrollmentId (db : DB) : Nat :=
  (db.enrollments.map (·.id)).foldr max 0 + 1

/-- `POST /courses/{course_id}/enroll`: NotFound if the course is absent,
Forbidden on a draft course unless owner or SUPER_ADMIN, otherwise return
the existing enrollment unchanged if one exists, else insert a fresh
ACTIVE row with progress 0. -/
def enrollInCourse (db : DB) (cur : User) (courseId : Nat) (now : Nat) :
    Except ApiError (DB × Enrollment) :=
  match db.courses.find? (fun c => decide (c.id = courseId)) with
  | none => .error (.notFound "Course not found")
  | some course =>
    if course.status = CourseStatus.DRAFT ∧ course.teacherId ≠ cur.id ∧
        cur.role ≠ UserRole.SUPER_ADMIN then
      .error (.forbidden "Course is in draft and only accessible by the teacher")
    else
      match db.enrollments.find? (fun e => decide (e.userId = cur.id ∧ e.courseId = courseId)) with
      | some existing => .ok (db, existing)
      | none =>
        let e : Enrollment :=
          { id := freshEnrollmentId db, userId := cur.id, courseId := courseId,
            status := .ACTIVE, progressPercent := 0, enrolledAt := now, completedAt := none }
        .ok ({ db with enrollments := db.enrollments ++ [e] }, e)

/-! ## Progress Aggregator (courses.py lines 468-544) -/

/-- `ORDER BY enrolled_at DESC` + `.first()` over the caller's enrollments
in the lesson's course: the earliest-listed row among those with maximal
`enrolled_at`. -/
def latestEnrollment (db : DB) (userId courseId : Nat) : Option Enrollment :=
  (db.enrollments.filter fun e => decide (e.userId = userId ∧ e.courseId = courseId)).foldl
    (fun acc e =>
      match acc with
      | none => some e
      | some b => if b.enrolledAt < e.enrolledAt then some e else some b)
    none

/-- Fresh primary key for an inserted lesson-progress row. -/
def freshLessonProgressId (db : DB) : Nat :=
  (db.lessonProgress.map (·.id)).foldr max 0 + 1

/-- Request body of `POST /lessons/{lesson_id}/progress`
(`LessonProgressUpdate` in schemas/course.py). -/
structure ProgressIn where
  status : LessonStatus
  timeSpentSeconds : Option Int
deriving DecidableEq, Repr

/-- Outcome of one lesson-progress update.  The endpoint calls
`db.commit()` twice — once after writing the LessonProgress row, once
after recomputing the Enrollment — so both durable snapshots are kept:
`committed1` is the state after the first commit, `committed2` after the
second.  `enrBefore`/`enrAfter` are the touched enrollment row before
and after recomputation, `progress` the written LessonProgress row. -/
structure ProgressResult where
  committed1 : DB
  committed2 : DB
  progress : LessonProgress
  enrBefore : Enrollment
  enrAfter : Enrollment
deriving DecidableEq, Repr

/-- The tail of `update_lesson_progress` once the row to write is
settled (courses.py lines 514-544): stamp `completed_at` when the new
status is COMPLETED, first `db.commit()` (the row is inserted when it
was freshly created, updated in place otherwise), recount the course's
lessons and the enrollment's COMPLETED rows, write
`progress_percent = completed / total * 100 if total > 0 else 0`, flip
the enrollment to COMPLETED with `completed_at = now` when the
percentage reaches 100, and second `db.commit()`. -/
def ulpCommit (db : DB) (lesson : Lesson) (enr : Enrollment) (found : Option LessonProgress)
    (progress1 : LessonProgress) (inpStatus : LessonStatus) (now : Nat) : ProgressResult :=
  let progress2 : LessonProgress :=
    if inpStatus = LessonStatus.COMPLETED then { progress1 with completedAt := some now }
    else progress1
  let db1 : DB :=
    match found with
    | none => { db with lessonProgress := db.lessonProgress ++ [progress2] }
    | some lp =>
      { db with lessonProgress := db.lessonProgress.map (fun x => if x.id = lp.id then progress2 else x) }
  let total := (db1.lessons.filter fun l => decide (l.courseId = lesson.courseId)).length
  let completed := (db1.lessonProgress.filter
    (fun lp => decide (lp.enrollmentId = enr.id ∧ lp.status = LessonStatus.COMPLETED))).length
  let pct : ℚ := if 0 < total then (completed : ℚ) / (total : ℚ) * 100 else 0
  let enr' : Enrollment :=
    if 100 ≤ pct then
      { enr with progressPercent := pct, status := .COMPLETED, completedAt := some now }
    else { enr with progressPercent := pct }
  let db2 : DB :=
    { db1 with enrollments := db1.enrollments.map (fun e => if e.id = enr.id then enr' else e) }
  { committed1 := db1, committed2 := db2, progress := progress2,
    enrBefore := enr, enrAfter := enr' }

/-- `update_lesson_progress` (courses.py lines 468-544), step for step:
look up the lesson (404), the latest matching enrollment (400),
get-or-create the LessonProgress row and set its status, then
`if progress_in.time_spent_seconds:` (`None` and `0` are both falsy)
accumulate the time — but on the create path the newly constructed ORM
object's `time_spent_seconds` attribute is still `None`
(`Column(default=0)` applies only at INSERT flush), so the `+=` of
courses.py line 512 raises `TypeError` whenever the truthy-time branch
is reached with a fresh row: an unhandled 500 with nothing yet
committed.  A fresh row flushed without the `+=` receives the column
default 0.  The surviving paths continue with `ulpCommit`. -/
def updateLessonProgress (db : DB) (cur : User) (lessonId : Nat) (inp : ProgressIn)
    (now : Nat) : Except ApiError ProgressResult :=
  match db.lessons.find? (fun l => decide (l.id = lessonId)) with
  | none => .error (.notFound "Lesson not found")
  | some lesson =>
    match latestEnrollment db cur.id lesson.courseId with
    | none => .error (.badRequest "Not enrolled in this course")
    | some enr =>
      let found := db.lessonProgress.find?
        (fun lp => decide (lp.enrollmentId = enr.id ∧ lp.lessonId = lessonId))
      let progress0 : LessonProgress :=
        match found with
        | none =>
          { id := freshLessonProgressId db, enrollmentId := enr.id, lessonId := lessonId,
            status := inp.status, timeSpentSeconds := 0,
            startedAt := if inp.status ≠ LessonStatus.NOT_STARTED then some now else none,
            completedAt := none }
        | some lp => { lp with status := inp.status }
      match inp.timeSpentSeconds with
      | some t =>
        if t ≠ 0 then
          match found with
          | none =>
            -- courses.py line 512 on a fresh row: `None += t`
            .error (.internal "TypeError: unsupported operand type(s) for +=: NoneType and int")
          | some _ =>
            .ok (ulpCommit db lesson enr found
              { progress0 with timeSpentSeconds := progress0.timeSpentSeconds + t } inp.status now)
        else .ok (ulpCommit db lesson enr found progress0 inp.status now)
      | none => .ok (ulpCommit db lesson enr found progress0 inp.status now)

/-- Any successful `update_lesson_progress` run is an `ulpCommit` of the
looked-up lesson, the latest matching enrollment, the get-or-create
lookup result and some settled row. -/
theorem updateLessonProgress_ok_shape (db : DB) (cur : User) (lessonId : Nat)
    (inp : ProgressIn) (now : Nat) (r : ProgressResult)
    (h : updateLessonProgress db cur lessonId inp now = .ok r) :
    ∃ lesson enr found p1,
      db.lessons.find? (fun l => decide (l.id = lessonId)) = some lesson ∧
      latestEnrollment db cur.id lesson.courseId = some enr ∧
      r = ulpCommit db lesson enr found p1 inp.status now := by
  unfold updateLessonProgress at h
  split at h
  · simp at h
  · rename_i lesson hl
    split at h
    · simp at h
    · rename_i enr he
      cases hts : inp.timeSpentSeconds with
      | none =>
        simp only [hts] at h
        injection h with hr
        exact ⟨lesson, enr, _, _, hl, he, hr.symm⟩
      | some t =>
        simp only [hts] at h
        by_cases ht : t ≠ 0
        · rw [if_pos ht] at h
          cases hfnd : db.lessonProgress.find?
              (fun lp => decide (lp.enrollmentId = enr.id ∧ lp.lessonId = lessonId)) with
          | none =>
            rw [hfnd] at h
            simp at h
          | some lp0 =>
            rw [hfnd] at h
            simp only [Except.ok.injEq] at h
            exact ⟨lesson, enr, _, _, hl, he, h.symm⟩
        · rw [if_neg ht] at h
          injection h with hr
          exact ⟨lesson, enr, _, _, hl, he, hr.symm⟩

/-! ## Cascading Deletion Protocol for a User (admin.py lines 215-300) -/

/-- Stage 5(a): unlink a lesson from any quiz in `quizIds`
(`UPDATE lessons SET linked_quiz_id = NULL, quiz_code = NULL WHERE
linked_quiz_id IN quiz_ids`). -/
def lessonUnlink (quizIds : List Nat) (l : Lesson) : Lesson :=
  match l.linkedQuizId with
  | some qid => if qid ∈ quizIds then { l with linkedQuizId := none, quizCode := none } else l
  | none => l

/-- The ordered deletion stages of `admin_delete_user`, applied to the
state once the target has been found and the self-deletion guard passed:
(1) participations by the user, (2) attempts by the user,
(3) the user's enrollments with their LessonProgress (ORM cascade),
(4) community messages and feedback by the user,
(5) for the set of quizzes the user owns: unlink lessons, purge all
participations and attempts on those quizzes, delete the quizzes (ORM
cascades questions → choices), (6) delete the user's courses (ORM
cascades lessons → progress, enrollments → progress, messages,
feedback), (7) delete the user row. -/
def adminDeleteUserApply (db : DB) (targetId : Nat) : DB :=
  -- id sets the stages collect: the user's quizzes and courses (stage
  -- 5/6 selections, taken from tables no earlier stage touches), the
  -- user's own enrollments (stage 3), and the children the ORM cascades
  -- walk when quizzes and courses are deleted
  let quizIds : List Nat := (db.quizzes.filter fun q => decide (q.teacherId = targetId)).map (·.id)
  let courseIds : List Nat := (db.courses.filter fun c => decide (c.teacherId = targetId)).map (·.id)
  let userEnrIds : List Nat := (db.enrollments.filter fun e => decide (e.userId = targetId)).map (·.id)
  let deletedQuestionIds : List Nat := (db.questions.filter fun q => decide (q.quizId ∈ quizIds)).map (·.id)
  -- stage 5(a): lessons after the bulk UPDATE unlinking the user's quizzes
  let unlinked : List Lesson := db.lessons.map (lessonUnlink quizIds)
  let deletedLessonIds : List Nat := (unlinked.filter fun l => decide (l.courseId ∈ courseIds)).map (·.id)
  let deletedEnrIds : List Nat := ((db.enrollments.filter fun e => decide (e.userId ≠ targetId)).filter
    fun e => decide (e.courseId ∈ courseIds)).map (·.id)
  -- each table's final content: the inner filter is the earlier stage
  { -- stage 7
    users := db.users.filter fun u => decide (u.id ≠ targetId),
    -- stage 5(c)
    quizzes := db.quizzes.filter fun q => decide (q.teacherId ≠ targetId),
    questions := db.questions.filter fun q => decide (q.quizId ∉ quizIds),
    choices := db.choices.filter fun c => decide (c.questionId ∉ deletedQuestionIds),
    -- stage 2, then stage 5(b)
    attempts := (db.attempts.filter fun a => decide (a.userId ≠ targetId)).filter
      fun a => decide (a.quizId ∉ quizIds),
    -- stage 1, then stage 5(b)
    participations := (db.participations.filter fun p => decide (p.userId ≠ targetId)).filter
      fun p => decide (p.quizId ∉ quizIds),
    -- stage 6
    courses := db.courses.filter fun c => decide (c.teacherId ≠ targetId),
    -- stage 5(a), then stage 6's lesson cascade
    lessons := unlinked.filter fun l => decide (l.courseId ∉ courseIds),
    -- stage 3, then stage 6's enrollment cascade
    enrollments := (db.enrollments.filter fun e => decide (e.userId ≠ targetId)).filter
      fun e => decide (e.courseId ∉ courseIds),
    -- stage 3's cascade, then stage 6's two progress cascades
    lessonProgress := (db.lessonProgress.filter fun lp =>
      decide (lp.enrollmentId ∉ userEnrIds)).filter fun lp =>
      decide (lp.lessonId ∉ deletedLessonIds ∧ lp.enrollmentId ∉ deletedEnrIds),
    -- stage 4, then stage 6's cascades
    messages := (db.messages.filter fun m => decide (m.userId ≠ targetId)).filter
      fun m => decide (m.courseId ∉ courseIds),
    feedback := (db.feedback.filter fun f => decide (f.userId ≠ targetId)).filter
      fun f => decide (f.courseId ∉ courseIds) }

/-- `DELETE /admin/users/{user_id}` (admin.py lines 215-300): superuser
dependency, 404 if the target is absent, 400 on self-deletion
(`"Super Admin cannot delete themselves."`), otherwise the staged
deletion committed as one transaction. -/
def adminDeleteUserRun (db : DB) (cur : User) (targetId : Nat) : Except ApiError DB :=
  if cur.role ≠ UserRole.SUPER_ADMIN then
    .error (.forbidden "The user doesn't have enough privileges")
  else
    match db.users.find? (fun u => decide (u.id = targetId)) with
    | none => .error (.notFound "User not found")
    | some user =>
      if user.id = cur.id then .error (.badRequest "Super Admin cannot delete themselves.")
      else .ok (adminDeleteUserApply db targetId)

/-- Observable store after a call to the admin user-deletion endpoint: an
error leaves the state untouched (the transaction never commits). -/
def adminDeleteUserFinal (db : DB) (cur : User) (targetId : Nat) : DB :=
  match adminDeleteUserRun db cur targetId with
  | .ok db' => db'
  | .error _ => db

/-- Observable store after a call to the attempt-recording endpoint: an
error (failed commit) leaves the state untouched. -/
def createQuizAttemptFinal (db : DB) (cur : User) (quizId : Nat) (inp : QuizAttemptCreate)
    (now : Nat) : DB :=
  match createQuizAttempt db cur quizId inp now with
  | .ok (db', _) => db'
  | .error _ => db

/-- Inputs that violate the `quiz_attempts` storage check constraints. -/
def attemptInputInvalid (inp : QuizAttemptCreate) : Prop :=
  inp.score < 0 ∨ inp.correctAnswers < 0 ∨ inp.totalQuestions < inp.correctAnswers

/-! ## Concrete stores used by witnesses and counterexamples -/

/-- The empty store. -/
def dbEmpty : DB :=
  { users := [], quizzes := [], questions := [], choices := [], attempts := [],
    participations := [], courses := [], lessons := [], enrollments := [],
    lessonProgress := [], messages := [], feedback := [] }

/-- Teacher 1 owns quizzes 1 and 2; attempts with asymmetric totals
`correct = [3, 45]`, `total = [10, 50]` distinguish the pooled ratio
(80) from the mean of per-attempt percentages (60). -/
def dbC8 : DB :=
  { dbEmpty with
    quizzes := [⟨1, 1, "Q1CODE"⟩, ⟨2, 1, "Q2CODE"⟩],
    attempts := [⟨1, 1, 2, 300, 10, 3, none, 0⟩, ⟨2, 2, 3, 900, 50, 45, none, 0⟩] }

/-- Teacher 9 owns quiz 3 whose single attempt has `total_questions = 0`. -/
def dbC8zero : DB :=
  { dbEmpty with
    quizzes := [⟨3, 9, "Q3CODE"⟩],
    attempts := [⟨1, 3, 2, 0, 0, 0, none, 0⟩] }

/-- Quiz 1 and course 1 are both owned by teacher 9. -/
def dbC10 : DB :=
  { dbEmpty with
    quizzes := [⟨1, 9, "ABC123"⟩],
    courses := [⟨1, 9, .PUBLISHED, some "CCCCCCCC"⟩] }

/-- A lone super admin, user 1. -/
def dbC9 : DB := { dbEmpty with users := [⟨1, .SUPER_ADMIN⟩] }

/-- Super admin 7 next to an unrelated student. -/
def dbC9w : DB := { dbEmpty with users := [⟨7, .SUPER_ADMIN⟩, ⟨8, .STUDENT⟩] }

/-! ## Code Allocator lemmas (claim C5) -/

/-- If every draw collides, the bounded quiz loop walks its whole budget
and exits with the attempt counter at the bound. -/
theorem quizAllocGo_all_taken (taken : String → Bool) (draws : Nat → String) :
    ∀ (remaining attempts : Nat), (∀ i, i < attempts + remaining → taken (draws i) = true) →
    quizAllocGo taken draws attempts remaining (draws attempts) =
      (attempts + remaining, draws (attempts + remaining)) := by
  intro remaining
  induction remaining with
  | zero => intro attempts _; simp [quizAllocGo]
  | succ r ih =>
    intro attempts h
    have ht : taken (draws attempts) = true := h attempts (by omega)
    rw [quizAllocGo, if_pos ht, ih (attempts + 1) (fun i hi => h i (by omega))]
    have hadd : attempts + 1 + r = attempts + (r + 1) := by omega
    rw [hadd]

/-- The bounded quiz loop stops at the first non-colliding draw inside
its budget, with the attempt counter still under the bound. -/
theorem quizAllocGo_first_free (taken : String → Bool) (draws : Nat → String) :
    ∀ (remaining attempts j : Nat), attempts ≤ j → j < attempts + remaining →
    (∀ i, i < j → taken (draws i) = true) → taken (draws j) = false →
    quizAllocGo taken draws attempts remaining (draws attempts) = (j, draws j) := by
  intro remaining
  induction remaining with
  | zero => intro attempts j h1 h2 _ _; omega
  | succ r ih =>
    intro attempts j h1 h2 hall hfree
    rcases Nat.eq_or_lt_of_le h1 with heq | hlt
    · subst heq
      rw [quizAllocGo, if_neg (by simp [hfree])]
    · have ht : taken (draws attempts) = true := hall attempts hlt
      rw [quizAllocGo, if_pos ht]
      exact ih (attempts + 1) j (by omega) (by omega) hall hfree

/-- With every code taken, the unbounded course loop is still running
after any number of iterations. -/
theorem courseAllocGo_all_taken (draws : Nat → String) :
    ∀ (fuel idx : Nat), courseAllocGo (fun _ => true) draws idx fuel = none := by
  intro fuel
  induction fuel with
  | zero => intro idx; rfl
  | succ f ih => intro idx; rw [courseAllocGo, if_pos rfl]; exact ih (idx + 1)

/-- The course loop returns the first non-colliding draw once the fuel
reaches it. -/
theorem courseAllocGo_first_free (taken : String → Bool) (draws : Nat → String) :
    ∀ (fuel idx j : Nat), idx ≤ j → j < idx + fuel →
    (∀ i, idx ≤ i → i < j → taken (draws i) = true) → taken (draws j) = false →
    courseAllocGo taken draws idx fuel = some (draws j) := by
  intro fuel
  induction fuel with
  | zero => intro idx j h1 h2 _ _; omega
  | succ f ih =>
    intro idx j h1 h2 hall hfree
    rcases Nat.eq_or_lt_of_le h1 with heq | hlt
    · subst heq
      rw [courseAllocGo, if_neg (by simp [hfree])]
    · have ht : taken (draws idx) = true := hall idx (Nat.le_refl idx) hlt
      rw [courseAllocGo, if_pos ht]
      exact ih (idx + 1) j (by omega) (by omega) (fun i hi1 hi2 => hall i (by omega) hi2) hfree

/-- C5: the claim as stated is false for the course allocator.  At a
store where every drawn code collides, the quiz allocation surfaces its
distinct fatal error after exhausting the 10-attempt bound, but the
course allocation loop (`while True` in `create_course`) is still
retrying after 1000 draws — it neither terminates within 10 attempts nor
surfaces any error. -/
theorem claim5_code_allocation_counterexample :
    allocateQuizCode (fun _ => true) (fun _ => "AAAAAA") =
      .error (.internal "Failed to generate a unique access code") ∧
    courseAllocGo (fun _ => true) (fun _ => "AAAAAAAA") 0 1000 = none := by
  exact ⟨rfl, courseAllocGo_all_taken _ 1000 0⟩

/-- C5 (amended): the quiz allocator's check-and-retry loop is bounded by
10 attempts — it returns the first free draw when one occurs among the
first ten, and surfaces the distinct fatal 500 error when all ten draws
collide; the course allocator's loop is unbounded — it is still running
after arbitrarily much fuel while every draw collides, and terminates
exactly by returning the first free draw when the fuel reaches one. -/
theorem claim5_code_allocation_amended :
    (∀ (taken : String → Bool) (draws : Nat → String),
        (∀ i, i < 10 → taken (draws i) = true) →
        allocateQuizCode taken draws =
          .error (.internal "Failed to generate a unique access code")) ∧
    (∀ (taken : String → Bool) (draws : Nat → String) (j : Nat), j < 10 →
        (∀ i, i < j → taken (draws i) = true) → taken (draws j) = false →
        allocateQuizCode taken draws = .ok (draws j)) ∧
    (∀ (draws : Nat → String) (fuel idx : Nat),
        courseAllocGo (fun _ => true) draws idx fuel = none) ∧
    (∀ (taken : String → Bool) (draws : Nat → String) (fuel j : Nat), j < fuel →
        (∀ i, i < j → taken (draws i) = true) → taken (draws j) = false →
        courseAllocGo taken draws 0 fuel = some (draws j)) := by
  refine ⟨?_, ?_, ?_, ?_⟩
  · intro taken draws h
    unfold allocateQuizCode
    rw [quizAllocGo_all_taken taken draws 10 0 (fun i hi => h i (by omega))]
    simp
  · intro taken draws j hj hall hfree
    unfold allocateQuizCode
    rw [quizAllocGo_first_free taken draws 10 0 j (Nat.zero_le j) (by omega) hall hfree]
    simp [Nat.not_le.mpr hj]
  · intro draws fuel idx
    exact courseAllocGo_all_taken draws fuel idx
  · intro taken draws fuel j hj hall hfree
    exact courseAllocGo_first_free taken draws fuel 0 j (Nat.zero_le j) (by omega)
      (fun i _ hi => hall i hi) hfree

/-- C5 witness: with only the first draw colliding, the quiz allocator
succeeds on the second draw. -/
theorem claim5_code_allocation_witness :
    allocateQuizCode (fun c => decide (c = "AAAAAA"))
      (fun i => if i = 0 then "AAAAAA" else "BBBBBB") = .ok "BBBBBB" :=
  claim5_code_allocation_amended.2.1 _ _ 1 (by omega)
    (fun i hi => by interval_cases i; simp) (by simp)

/-! ## Attempt Recorder theorems (claims C8, C7) -/

/-- C8: `get_teacher_stats` computes its average completion rate as the
pooled ratio of the spec's words — `sum(correct)/sum(total) * 100` over
all attempts on the teacher's quizzes, 0 when there are none or the
summed totals are 0; on the asymmetric example `correct = [3, 45]`,
`total = [10, 50]` it yields 80, whereas the mean of per-attempt
percentages would yield 60. -/
theorem claim8_pooled_completion_rate :
    (∀ (db : DB) (t : Nat),
        teacherAvgCompletionRate db t = specPooledCompletionRate (teacherAttempts db t)) ∧
    ((teacherAttempts dbC8 1).map (fun a => (a.correctAnswers, a.totalQuestions)) =
        [(3, 10), (45, 50)] ∧
      teacherAvgCompletionRate dbC8 1 = 80 ∧
      specMeanOfPerAttemptRates (teacherAttempts dbC8 1) = 60) ∧
    (∀ (db : DB) (t : Nat),
        ((teacherAttempts db t).map (·.totalQuestions)).sum = 0 →
        teacherAvgCompletionRate db t = 0) := by
  refine ⟨?_, ⟨by decide, ?_, ?_⟩, ?_⟩
  · intro db t
    simp only [teacherAvgCompletionRate, specPooledCompletionRate, sqlSumInt]
    by_cases h : teacherAttempts db t = []
    · simp [h]
    · rw [if_neg (by simpa using h), if_neg (by simpa using h)]
  · simp [teacherAvgCompletionRate, teacherAttempts, dbC8, dbEmpty, sqlSumInt]
    norm_num
  · simp [specMeanOfPerAttemptRates, teacherAttempts, dbC8, dbEmpty]
    norm_num
  · intro db t h
    simp only [teacherAvgCompletionRate, sqlSumInt]
    by_cases hnil : teacherAttempts db t = []
    · simp [hnil]
    · rw [if_neg (by simpa using hnil), if_neg (by simpa using hnil), h]
      simp

/-- C8 witness: a teacher whose only attempt has `total_questions = 0`
gets completion rate 0 rather than a division error. -/
theorem claim8_pooled_completion_rate_witness :
    teacherAvgCompletionRate dbC8zero 9 = 0 :=
  claim8_pooled_completion_rate.2.2 dbC8zero 9 (by decide)

/-- C7: the claim is false — submitting an attempt with `score = -1`
(score < 0) is not rejected by a validation error before writing; the
unvalidated insert fails at the storage check constraint and surfaces as
a generic 500 internal error, not the 422 of a validation rejection. -/
theorem claim7_attempt_validation_counterexample :
    createQuizAttempt dbEmpty ⟨2, .STUDENT⟩ 1 ⟨1, -1, 3, 2, none⟩ 5 =
      .error (.internal "IntegrityError: quiz_attempts check constraint violated") ∧
    ApiError.statusCode (.internal "IntegrityError: quiz_attempts check constraint violated")
      = 500 ∧
    ApiError.statusCode (.validation "correct_answers cannot exceed total_questions") = 422 ∧
    (500 : Nat) ≠ 422 := by
  exact ⟨rfl, rfl, rfl, by decide⟩

/-- C7 (amended): `create_quiz_attempt` performs no validation of its
own; any input violating the storage check constraints
(`score < 0`, `correct_answers < 0`, or
`correct_answers > total_questions`) makes the commit fail with the
generic 500 storage error, and no QuizAttempt row is created. -/
theorem claim7_attempt_validation_amended (db : DB) (cur : User) (quizId : Nat)
    (inp : QuizAttemptCreate) (now : Nat) (hbad : attemptInputInvalid inp) :
    createQuizAttempt db cur quizId inp now =
      .error (.internal "IntegrityError: quiz_attempts check constraint violated") ∧
    createQuizAttemptFinal db cur quizId inp now = db := by
  have herr : createQuizAttempt db cur quizId inp now =
      .error (.internal "IntegrityError: quiz_attempts check constraint violated") := by
    unfold createQuizAttempt
    rw [if_neg]
    intro hok
    rcases hok with ⟨h1, h2, h3⟩
    simp only at h1 h2 h3
    unfold attemptInputInvalid at hbad
    rcases hbad with hb | hb | hb <;> omega
  exact ⟨herr, by unfold createQuizAttemptFinal; rw [herr]⟩

/-- C7 witness: an attempt claiming 4 correct out of 3 questions is
turned away by the storage constraint with the generic 500 error. -/
theorem claim7_attempt_validation_witness :
    createQuizAttempt dbEmpty ⟨3, .STUDENT⟩ 1 ⟨1, 5, 3, 4, none⟩ 0 =
      .error (.internal "IntegrityError: quiz_attempts check constraint violated") ∧
    createQuizAttemptFinal dbEmpty ⟨3, .STUDENT⟩ 1 ⟨1, 5, 3, 4, none⟩ 0 = dbEmpty :=
  claim7_attempt_validation_amended dbEmpty ⟨3, .STUDENT⟩ 1 ⟨1, 5, 3, 4, none⟩ 0
    (Or.inr (Or.inr (by decide)))

/-! ## Authorization asymmetry (claim C10) -/

/-- C9: the claim is false on the error class — the self-deletion guard
fires before any stage and changes nothing, but it raises HTTP 400
(Bad Request, `"Super Admin cannot delete themselves."`), not 403
Forbidden as claimed. -/
theorem claim9_self_delete_counterexample :
    adminDeleteUserRun dbC9 ⟨1, .SUPER_ADMIN⟩ 1 =
      .error (.badRequest "Super Admin cannot delete themselves.") ∧
    ApiError.statusCode (.badRequest "Super Admin cannot delete themselves.") = 400 ∧
    ApiError.statusCode (.forbidden "Super Admin cannot delete themselves.") = 403 ∧
    (400 : Nat) ≠ 403 ∧
    adminDeleteUserFinal dbC9 ⟨1, .SUPER_ADMIN⟩ 1 = dbC9 := by
  exact ⟨rfl, rfl, rfl, by decide, rfl⟩

/-- C9 (amended): a super admin deleting their own account is rejected
with a 400 Bad Request before any deletion stage executes, and the store
is left exactly as it was. -/
theorem claim9_self_delete_amended (db : DB) (cur : User) (u : User)
    (hfind : db.users.find? (fun x => decide (x.id = cur.id)) = some u)
    (hrole : cur.role = UserRole.SUPER_ADMIN) :
    adminDeleteUserRun db cur cur.id =
      .error (.badRequest "Super Admin cannot delete themselves.") ∧
    adminDeleteUserFinal db cur cur.id = db := by
  have hid : u.id = cur.id := by
    have := List.find?_some hfind
    simpa using this
  have hrun : adminDeleteUserRun db cur cur.id =
      .error (.badRequest "Super Admin cannot delete themselves.") := by
    unfold adminDeleteUserRun
    rw [if_neg (by simp [hrole]), hfind]
    simp [hid]
  exact ⟨hrun, by unfold adminDeleteUserFinal; rw [hrun]⟩

/-- C9 witness: super admin 7 attempting self-deletion in a two-user
store gets the 400 rejection and the store is unchanged. -/
theorem claim9_self_delete_witness :
    adminDeleteUserRun dbC9w ⟨7, .SUPER_ADMIN⟩ 7 =
      .error (.badRequest "Super Admin cannot delete themselves.") ∧
    adminDeleteUserFinal dbC9w ⟨7, .SUPER_ADMIN⟩ 7 = dbC9w :=
  claim9_self_delete_amended dbC9w ⟨7, .SUPER_ADMIN⟩ ⟨7, .SUPER_ADMIN⟩ rfl rfl

/-! ## Enrollment idempotency (claim C4) -/

/-- C4: once `enroll(u, c)` has succeeded, calling it again returns the
very same Enrollment row and leaves the store exactly as it was — same
id, no second row, no error, and the existing row's status,
progress_percent and enrolled_at untouched (the repeat call returns the
state and row of the first call unchanged, for any later clock value). -/
theorem claim4_enroll_idempotent (db db₁ : DB) (cur : User) (courseId now now' : Nat)
    (e₁ : Enrollment)
    (h : enrollInCourse db cur courseId now = .ok (db₁, e₁)) :
    enrollInCourse db₁ cur courseId now' = .ok (db₁, e₁) := by
  unfold enrollInCourse at h
  split at h
  · simp at h
  · rename_i course hc
    split at h
    · simp at h
    · rename_i hg
      split at h
      · rename_i ex hf
        obtain ⟨h1, h2⟩ : db = db₁ ∧ ex = e₁ := by simpa using h
        subst h1
        subst h2
        simp only [Bool.decide_and] at hf
        simp [enrollInCourse, hc, hg, hf]
      · rename_i hf
        obtain ⟨h1, h2⟩ : _ ∧ _ = e₁ := by simpa using h
        subst h1
        subst h2
        simp only [Bool.decide_and] at hf
        simp [enrollInCourse, hc, hg, List.find?_append, hf]

/-- Course 1 of teacher 9, no enrollments yet. -/
def dbC4 : DB := { dbEmpty with courses := [⟨1, 9, .PUBLISHED, some "ABCDEFGH"⟩] }

/-- The row the first `enroll` call creates for student 2. -/
def enrC4 : Enrollment := ⟨1, 2, 1, .ACTIVE, 0, 0, none⟩

/-- The store after the first `enroll` call. -/
def dbC4after : DB := { dbC4 with enrollments := [enrC4] }

/-- C4 witness: student 2 enrolls in course 1 at time 0; the repeat call
at time 99 returns the identical row and state. -/
theorem claim4_enroll_idempotent_witness :
    enrollInCourse dbC4after ⟨2, .STUDENT⟩ 1 99 = .ok (dbC4after, enrC4) :=
  claim4_enroll_idempotent dbC4 dbC4after ⟨2, .STUDENT⟩ 1 0 99 enrC4 (by decide)

/-! ## Quiz deletion endpoints (claim C2) -/

/-- What either quiz-deletion endpoint actually leaves behind: the quiz
row, its questions and their choices are gone, while attempts,
participations, lessons and every other table are exactly as before. -/
def quizDeletionResidue (db db' : DB) (quizId : Nat) : Prop :=
  (∀ q ∈ db'.quizzes, q.id ≠ quizId) ∧
  (∀ qu ∈ db'.questions, qu.quizId ≠ quizId) ∧
  (∀ c ∈ db'.choices, ∀ qu ∈ db.questions, qu.quizId = quizId → c.questionId ≠ qu.id) ∧
  db'.attempts = db.attempts ∧
  db'.participations = db.participations ∧
  db'.lessons = db.lessons ∧
  db'.enrollments = db.enrollments ∧
  db'.users = db.users ∧
  db'.courses = db.courses

/-- `db.delete(quiz)` deletes exactly the quiz, its questions and their
choices and touches nothing else. -/
theorem dbDeleteQuizOrm_residue (db : DB) (quizId : Nat) :
    quizDeletionResidue db (dbDeleteQuizOrm db quizId) quizId := by
  unfold quizDeletionResidue dbDeleteQuizOrm
  refine ⟨?_, ?_, ?_, rfl, rfl, rfl, rfl, rfl, rfl⟩
  · intro q hq
    simp only [List.mem_filter, decide_eq_true_eq] at hq
    exact hq.2
  · intro qu hqu
    simp only [List.mem_filter, decide_eq_true_eq] at hqu
    exact hqu.2
  · intro c hc qu hqu hquiz heq
    simp only [List.mem_filter, decide_eq_true_eq] at hc
    exact hc.2 (heq ▸ List.mem_map_of_mem (·.id)
      (List.mem_filter.mpr ⟨hqu, by simp [hquiz]⟩))

/-- Teacher 1's quiz 1 with one question/choice, an attempt and a
participation by student 2, and a lesson of course 7 linked to it. -/
def dbC2 : DB :=
  { dbEmpty with
    users := [⟨1, .TEACHER⟩, ⟨2, .STUDENT⟩],
    quizzes := [⟨1, 1, "ABC123"⟩],
    questions := [⟨4, 1⟩],
    choices := [⟨6, 4⟩],
    attempts := [⟨1, 1, 2, 500, 5, 3, none, 0⟩],
    participations := [⟨1, 1, 2⟩],
    courses := [⟨7, 1, .PUBLISHED, some "CRSCODE1"⟩],
    lessons := [⟨3, 7, some 1, some "ABC123"⟩] }

/-- The store both quiz-deletion endpoints leave behind for `dbC2`. -/
def dbC2after : DB := dbDeleteQuizOrm dbC2 1

/-- Course 1 (teacher 9) with single lesson 10; student 2 enrolled with
no progress yet. -/
def dbC6 : DB :=
  { dbEmpty with
    users := [⟨9, .TEACHER⟩, ⟨2, .STUDENT⟩],
    courses := [⟨1, 9, .PUBLISHED, some "CRSCODE6"⟩],
    lessons := [⟨10, 1, none, none⟩],
    enrollments := [⟨5, 2, 1, .ACTIVE, 0, 0, none⟩] }

/-- The LessonProgress row written by completing lesson 10 at time 7. -/
def lpC6 : LessonProgress := ⟨1, 5, 10, .COMPLETED, 0, some 7, some 7⟩

/-- Durable state after the first commit: the COMPLETED progress row is
stored but the enrollment still reads 0 percent, ACTIVE. -/
def dbC6mid : DB := { dbC6 with lessonProgress := [lpC6] }

/-- Durable state after the second commit: the enrollment now reads 100
percent, COMPLETED. -/
def dbC6end : DB := { dbC6mid with enrollments := [⟨5, 2, 1, .COMPLETED, 100, 0, some 7⟩] }

/-- C6: the claim is false — the endpoint issues two separate commits,
and between them the store durably pairs a COMPLETED LessonProgress row
with an enrollment whose progress_percent is still 0 (ACTIVE): the two
writes are observable out of sync. -/
theorem claim6_two_commits_counterexample :
    updateLessonProgress dbC6 ⟨2, .STUDENT⟩ 10 ⟨.COMPLETED, none⟩ 7 =
      .ok ⟨dbC6mid, dbC6end, lpC6, ⟨5, 2, 1, .ACTIVE, 0, 0, none⟩,
        ⟨5, 2, 1, .COMPLETED, 100, 0, some 7⟩⟩ ∧
    dbC6mid.lessonProgress.map (·.status) = [.COMPLETED] ∧
    dbC6mid.enrollments.map (fun e => (e.progressPercent, e.status)) = [(0, .ACTIVE)] ∧
    dbC6mid ≠ dbC6end := by
  refine ⟨?_, by decide, by decide, by decide⟩
  simp [updateLessonProgress, ulpCommit, dbC6, dbC6mid, dbC6end, dbEmpty, latestEnrollment,
    freshLessonProgressId, lpC6]

/-- C6 (amended): the two writes are committed separately — the first
commit persists only the LessonProgress change and leaves every
enrollment row exactly as before; the enrollment recomputation becomes
durable only at the second commit, which touches no LessonProgress row.
A failure between the commits therefore leaves the LessonProgress
changes durable while the Enrollment recomputation is not. -/
theorem claim6_two_commits_amended (db : DB) (cur : User) (lessonId : Nat) (inp : ProgressIn)
    (now : Nat) (r : ProgressResult)
    (h : updateLessonProgress db cur lessonId inp now = .ok r) :
    r.committed1.enrollments = db.enrollments ∧
    r.committed2.lessonProgress = r.committed1.lessonProgress ∧
    r.committed2.enrollments =
      r.committed1.enrollments.map
        (fun e => if e.id = r.enrBefore.id then r.enrAfter else e) := by
  obtain ⟨lesson, enr, found, p1, hl, he, hr⟩ :=
    updateLessonProgress_ok_shape db cur lessonId inp now r h
  subst hr
  cases found <;> exact ⟨rfl, rfl, rfl⟩

/-- C6 witness: the amended statement at the concrete run of
`claim6_two_commits_counterexample`'s input. -/
theorem claim6_two_commits_witness :
    dbC6mid.enrollments = dbC6.enrollments ∧
    dbC6end.lessonProgress = dbC6mid.lessonProgress ∧
    dbC6end.enrollments =
      dbC6mid.enrollments.map (fun e => if e.id = 5 then (⟨5, 2, 1, .COMPLETED, 100, 0, some 7⟩ : Enrollment) else e) := by
  have h : updateLessonProgress dbC6 ⟨2, .STUDENT⟩ 10 ⟨.COMPLETED, none⟩ 7 =
      .ok ⟨dbC6mid, dbC6end, lpC6, ⟨5, 2, 1, .ACTIVE, 0, 0, none⟩,
        ⟨5, 2, 1, .COMPLETED, 100, 0, some 7⟩⟩ := by
    simp [updateLessonProgress, ulpCommit, dbC6, dbC6mid, dbC6end, dbEmpty, latestEnrollment,
      freshLessonProgressId, lpC6]
  exact claim6_two_commits_amended dbC6 ⟨2, .STUDENT⟩ 10 ⟨.COMPLETED, none⟩ 7 _ h

/-! ## Progress Aggregator correctness (claim C3) -/

/-- The maximum-`enrolledAt` fold of `latestEnrollment` only ever
returns its accumulator or a member of the list. -/
theorem foldl_latest_mem (l : List Enrollment) :
    ∀ (acc : Option Enrollment) (b : Enrollment),
      l.foldl (fun acc e =>
        match acc with
        | none => some e
        | some b => if b.enrolledAt < e.enrolledAt then some e else some b) acc = some b →
      acc = some b ∨ b ∈ l := by
  induction l with
  | nil => intro acc b h; exact Or.inl h
  | cons e t ih =>
    intro acc b h
    rw [List.foldl_cons] at h
    cases acc with
    | none =>
      rcases ih _ b (by simpa using h) with hacc | hmem
      · right
        have heb : e = b := by simpa using hacc
        simp [heb]
      · exact Or.inr (List.mem_cons_of_mem _ hmem)
    | some x =>
      by_cases hlt : x.enrolledAt < e.enrolledAt
      · rcases ih _ b (by simpa [hlt] using h) with hacc | hmem
        · right
          have heb : e = b := by simpa using hacc
          simp [heb]
        · exact Or.inr (List.mem_cons_of_mem _ hmem)
      · rcases ih _ b (by simpa [hlt] using h) with hacc | hmem
        · exact Or.inl hacc
        · exact Or.inr (List.mem_cons_of_mem _ hmem)

/-- The enrollment `update_lesson_progress` picks is a row of the store. -/
theorem latestEnrollment_mem (db : DB) (userId courseId : Nat) (e : Enrollment)
    (h : latestEnrollment db userId courseId = some e) : e ∈ db.enrollments := by
  unfold latestEnrollment at h
  rcases foldl_latest_mem _ _ _ h with h' | h'
  · cases h'
  · exact (List.mem_filter.mp h').1

/-- Two duplicate-free lists of keys with the first contained in the
second pick out exactly as many elements of the second as the first
has. -/
theorem length_filter_mem_of_nodup (xs ys : List Nat) (hxs : xs.Nodup) (hys : ys.Nodup)
    (hsub : ∀ a ∈ xs, a ∈ ys) :
    (ys.filter (fun y => decide (y ∈ xs))).length = xs.length := by
  have hperm : List.Perm (ys.filter (fun y => decide (y ∈ xs))) xs := by
    rw [List.perm_ext_iff_of_nodup (hys.filter _) hxs]
    intro a
    simp only [List.mem_filter, decide_eq_true_eq]
    exact ⟨fun h => h.2, fun h => ⟨hsub a h, h⟩⟩
  exact hperm.length_eq

/-- The code's `completed` count (COMPLETED LessonProgress rows of the
enrollment) equals the number of distinct lessons of the course having a
COMPLETED row, provided lesson ids and per-enrollment progress rows are
duplicate-free and every completed row belongs to a lesson of the
course. -/
theorem completed_rows_are_distinct_lessons (lessons : List Lesson)
    (lps : List LessonProgress) (enrId courseId : Nat)
    (hnodupLessons : ((lessons.filter (fun l => decide (l.courseId = courseId))).map (·.id)).Nodup)
    (hnodupLP : ((lps.filter (fun lp =>
        decide (lp.enrollmentId = enrId ∧ lp.status = LessonStatus.COMPLETED))).map
        (·.lessonId)).Nodup)
    (hsub : ∀ lp ∈ lps, lp.enrollmentId = enrId → lp.status = LessonStatus.COMPLETED →
        ∃ l, l ∈ lessons ∧ l.id = lp.lessonId ∧ l.courseId = courseId) :
    ((lessons.filter (fun l => decide (l.courseId = courseId))).filter
        (fun l => lps.any (fun lp => decide (lp.enrollmentId = enrId ∧
          lp.lessonId = l.id ∧ lp.status = LessonStatus.COMPLETED)))).length =
      (lps.filter (fun lp =>
        decide (lp.enrollmentId = enrId ∧ lp.status = LessonStatus.COMPLETED))).length := by
  have hpred : ∀ l ∈ lessons.filter (fun l => decide (l.courseId = courseId)),
      (lps.any (fun lp => decide (lp.enrollmentId = enrId ∧
        lp.lessonId = l.id ∧ lp.status = LessonStatus.COMPLETED))) =
      decide (l.id ∈ (lps.filter (fun lp =>
        decide (lp.enrollmentId = enrId ∧ lp.status = LessonStatus.COMPLETED))).map
        (·.lessonId)) := by
    intro l _
    rw [Bool.eq_iff_iff]
    simp only [List.any_eq_true, decide_eq_true_eq, List.mem_map, List.mem_filter]
    constructor
    · rintro ⟨lp, hlp, h1, h2, h3⟩
      exact ⟨lp, ⟨hlp, h1, h3⟩, h2⟩
    · rintro ⟨lp, ⟨hlp, h1, h3⟩, h2⟩
      exact ⟨lp, hlp, h1, h2, h3⟩
  rw [List.filter_congr hpred]
  have hmaps : ((lessons.filter (fun l => decide (l.courseId = courseId))).filter
      (fun l => decide (l.id ∈ (lps.filter (fun lp => decide (lp.enrollmentId = enrId ∧
        lp.status = LessonStatus.COMPLETED))).map (·.lessonId)))).length =
      (((lessons.filter (fun l => decide (l.courseId = courseId))).map (·.id)).filter
      (fun y => decide (y ∈ (lps.filter (fun lp => decide (lp.enrollmentId = enrId ∧
        lp.status = LessonStatus.COMPLETED))).map (·.lessonId)))).length := by
    rw [List.filter_map, List.length_map]
    rfl
  rw [hmaps, length_filter_mem_of_nodup _ _ hnodupLP hnodupLessons, List.length_map]
  intro a ha
  simp only [List.mem_map, List.mem_filter, decide_eq_true_eq] at ha
  obtain ⟨lp, ⟨hlp, h1, h3⟩, h2⟩ := ha
  obtain ⟨l, hl, hid, hcourse⟩ := hsub lp hlp h1 h3
  simp only [List.mem_map, List.mem_filter, decide_eq_true_eq]
  exact ⟨l, ⟨hl, hcourse⟩, by rw [hid, h2]⟩

/-- What claim C3 asserts of a successful lesson-progress update on the
lesson's course: with `N` the number of the course's lessons and `k` the
code's count of COMPLETED progress rows for the touched enrollment, the
recomputed `progress_percent` is `k/N*100` (0 when `N = 0`), the
enrollment is flipped to COMPLETED with `completed_at` stamped exactly
when that value reaches 100 (and left untouched otherwise), and the
touched rows really are rows of the respective stores. -/
def claim3Post (db : DB) (lesson : Lesson) (now : Nat) (r : ProgressResult) : Prop :=
  r.enrAfter.progressPercent =
    (if 0 < (db.lessons.filter (fun l => decide (l.courseId = lesson.courseId))).length then
      ((r.committed2.lessonProgress.filter (fun lp => decide (lp.enrollmentId = r.enrBefore.id ∧
          lp.status = LessonStatus.COMPLETED))).length : ℚ) /
        ((db.lessons.filter (fun l => decide (l.courseId = lesson.courseId))).length : ℚ) * 100
    else 0) ∧
  (100 ≤ r.enrAfter.progressPercent →
    r.enrAfter.status = .COMPLETED ∧ r.enrAfter.completedAt = some now) ∧
  (r.enrAfter.progressPercent < 100 →
    r.enrAfter.status = r.enrBefore.status ∧ r.enrAfter.completedAt = r.enrBefore.completedAt) ∧
  r.enrBefore ∈ db.enrollments ∧
  r.enrAfter ∈ r.committed2.enrollments

/-- `ulpCommit` satisfies `claim3Post` whenever the enrollment it
recomputes is a row of the store. -/
theorem ulpCommit_post (db : DB) (lesson : Lesson) (enr : Enrollment)
    (found : Option LessonProgress) (p1 : LessonProgress) (st : LessonStatus) (now : Nat)
    (hmem : enr ∈ db.enrollments) :
    claim3Post db lesson now (ulpCommit db lesson enr found p1 st now) := by
  unfold claim3Post
  cases found with
  | none =>
    simp only [ulpCommit]
    refine ⟨?_, ?_, ?_, hmem, List.mem_map.mpr ⟨enr, hmem, if_pos rfl⟩⟩
    · split_ifs <;> rfl
    · split_ifs <;> intro h2 <;>
        first
        | exact ⟨rfl, rfl⟩
        | exact absurd h2 (by assumption)
    · split_ifs <;> intro h2 <;>
        first
        | exact ⟨rfl, rfl⟩
        | exact absurd h2 (not_lt.mpr (by assumption))
  | some lp0 =>
    simp only [ulpCommit]
    refine ⟨?_, ?_, ?_, hmem, List.mem_map.mpr ⟨enr, hmem, if_pos rfl⟩⟩
    · split_ifs <;> rfl
    · split_ifs <;> intro h2 <;>
        first
        | exact ⟨rfl, rfl⟩
        | exact absurd h2 (by assumption)
    · split_ifs <;> intro h2 <;>
        first
        | exact ⟨rfl, rfl⟩
        | exact absurd h2 (not_lt.mpr (by assumption))

/-- C3: every successful `update_lesson_progress` run satisfies
`claim3Post`, and — under the uniqueness invariants the store's unique
constraints maintain (duplicate-free lesson ids per course,
duplicate-free (enrollment, lesson) progress rows, completed rows all
belonging to lessons of the course) — the `k` in the percentage formula
is exactly the number of distinct lessons of the course having a
COMPLETED row for this enrollment. -/
theorem claim3_progress_aggregation (db : DB) (cur : User) (lessonId : Nat) (inp : ProgressIn)
    (now : Nat) (r : ProgressResult) (lesson : Lesson)
    (hl : db.lessons.find? (fun l => decide (l.id = lessonId)) = some lesson)
    (h : updateLessonProgress db cur lessonId inp now = .ok r)
    (hnodupLessons : ((db.lessons.filter
        (fun l => decide (l.courseId = lesson.courseId))).map (·.id)).Nodup)
    (hnodupLP : ((r.committed2.lessonProgress.filter (fun lp =>
        decide (lp.enrollmentId = r.enrBefore.id ∧
          lp.status = LessonStatus.COMPLETED))).map (·.lessonId)).Nodup)
    (hsub : ∀ lp ∈ r.committed2.lessonProgress, lp.enrollmentId = r.enrBefore.id →
        lp.status = LessonStatus.COMPLETED →
        ∃ l, l ∈ db.lessons ∧ l.id = lp.lessonId ∧ l.courseId = lesson.courseId) :
    claim3Post db lesson now r ∧
    ((db.lessons.filter (fun l => decide (l.courseId = lesson.courseId))).filter
        (fun l => r.committed2.lessonProgress.any (fun lp =>
          decide (lp.enrollmentId = r.enrBefore.id ∧ lp.lessonId = l.id ∧
            lp.status = LessonStatus.COMPLETED)))).length =
      (r.committed2.lessonProgress.filter (fun lp =>
        decide (lp.enrollmentId = r.enrBefore.id ∧
          lp.status = LessonStatus.COMPLETED))).length := by
  refine ⟨?_, completed_rows_are_distinct_lessons db.lessons r.committed2.lessonProgress
    r.enrBefore.id lesson.courseId hnodupLessons hnodupLP hsub⟩
  obtain ⟨lesson', enr, found, p1, hl', he, hr⟩ :=
    updateLessonProgress_ok_shape db cur lessonId inp now r h
  rw [hl] at hl'
  injection hl' with hlesson
  subst hlesson
  subst hr
  exact ulpCommit_post db lesson enr found p1 inp.status now
    (latestEnrollment_mem db cur.id lesson.courseId enr he)

/-- Course 1 (teacher 9) with lessons 10 and 11; student 2 enrolled, with
an existing IN_PROGRESS row for lesson 10 carrying 20 stored seconds (a
fresh row cannot take nonzero time: courses.py line 512 raises on it). -/
def dbC3 : DB :=
  { dbEmpty with
    users := [⟨9, .TEACHER⟩, ⟨2, .STUDENT⟩],
    courses := [⟨1, 9, .PUBLISHED, some "CRSCODE3"⟩],
    lessons := [⟨10, 1, none, none⟩, ⟨11, 1, none, none⟩],
    enrollments := [⟨5, 2, 1, .ACTIVE, 0, 0, none⟩],
    lessonProgress := [⟨1, 5, 10, .IN_PROGRESS, 20, some 0, none⟩] }

/-- Lesson 10's row after completing it at time 7 with 30 more seconds
accumulated onto the stored 20. -/
def lpC3 : LessonProgress := ⟨1, 5, 10, .COMPLETED, 50, some 0, some 7⟩

/-- State after the first commit of the C3 witness run. -/
def dbC3mid : DB := { dbC3 with lessonProgress := [lpC3] }

/-- The enrollment recomputed to 50 percent (1 of 2 lessons done). -/
def enrC3after : Enrollment := ⟨5, 2, 1, .ACTIVE, 50, 0, none⟩

/-- State after the second commit of the C3 witness run. -/
def dbC3end : DB := { dbC3mid with enrollments := [enrC3after] }

/-- Result of the C3 witness run. -/
def rC3 : ProgressResult := ⟨dbC3mid, dbC3end, lpC3, ⟨5, 2, 1, .ACTIVE, 0, 0, none⟩, enrC3after⟩

/-- C3 witness: completing 1 of 2 lessons (updating the existing row,
accumulating 20+30 seconds) leaves the enrollment at `1/2*100 = 50`
percent, not COMPLETED, and the count in the formula is the one distinct
completed lesson of the course. -/
theorem claim3_progress_aggregation_witness :
    claim3Post dbC3 ⟨10, 1, none, none⟩ 7 rC3 ∧
    ((dbC3.lessons.filter (fun l => decide (l.courseId = Lesson.courseId ⟨10, 1, none, none⟩))).filter
        (fun l => rC3.committed2.lessonProgress.any (fun lp =>
          decide (lp.enrollmentId = rC3.enrBefore.id ∧ lp.lessonId = l.id ∧
            lp.status = LessonStatus.COMPLETED)))).length =
      (rC3.committed2.lessonProgress.filter (fun lp =>
        decide (lp.enrollmentId = rC3.enrBefore.id ∧
          lp.status = LessonStatus.COMPLETED))).length := by
  have hrun : updateLessonProgress dbC3 ⟨2, .STUDENT⟩ 10 ⟨.COMPLETED, some 30⟩ 7 = .ok rC3 := by
    simp [updateLessonProgress, ulpCommit, dbC3, dbEmpty, latestEnrollment,
      freshLessonProgressId, rC3, dbC3mid, dbC3end, lpC3, enrC3after] <;> norm_num
  exact claim3_progress_aggregation dbC3 ⟨2, .STUDENT⟩ 10 ⟨.COMPLETED, some 30⟩ 7 rC3
    ⟨10, 1, none, none⟩ (by decide) hrun (by decide) (by decide)
    (by
      intro lp hlp h1 h2
      have hlpc : lp = lpC3 := by simpa [rC3, dbC3end, dbC3mid] using hlp
      subst hlpc
      exact ⟨⟨10, 1, none, none⟩, by simp [dbC3, dbEmpty], rfl, rfl⟩)

/-! ## Cascading user deletion leaves no dangling references (claim C1) -/

/-- What claim C1 asserts of the store after a successful admin user
deletion of `targetId`: no surviving row references the user's id, all
rows referencing any quiz or course the user owned are gone or unlinked,
the user's enrollments took their LessonProgress with them, and every
surviving lesson is its old self with stage 5(a)'s unlink applied. -/
def claim1Post (db : DB) (targetId : Nat) (db' : DB) : Prop :=
  (∀ u ∈ db'.users, u.id ≠ targetId) ∧
  (∀ q ∈ db'.quizzes, q.teacherId ≠ targetId) ∧
  (∀ c ∈ db'.courses, c.teacherId ≠ targetId) ∧
  (∀ a ∈ db'.attempts, a.userId ≠ targetId) ∧
  (∀ p ∈ db'.participations, p.userId ≠ targetId) ∧
  (∀ e ∈ db'.enrollments, e.userId ≠ targetId) ∧
  (∀ m ∈ db'.messages, m.userId ≠ targetId) ∧
  (∀ f ∈ db'.feedback, f.userId ≠ targetId) ∧
  (∀ e ∈ db.enrollments, e.userId = targetId →
    ∀ lp ∈ db'.lessonProgress, lp.enrollmentId ≠ e.id) ∧
  (∀ q ∈ db.quizzes, q.teacherId = targetId →
    (∀ qu ∈ db'.questions, qu.quizId ≠ q.id) ∧
    (∀ a ∈ db'.attempts, a.quizId ≠ q.id) ∧
    (∀ p ∈ db'.participations, p.quizId ≠ q.id) ∧
    (∀ l ∈ db'.lessons, l.linkedQuizId ≠ some q.id)) ∧
  (∀ c ∈ db.courses, c.teacherId = targetId →
    (∀ l ∈ db'.lessons, l.courseId ≠ c.id) ∧
    (∀ e ∈ db'.enrollments, e.courseId ≠ c.id) ∧
    (∀ m ∈ db'.messages, m.courseId ≠ c.id) ∧
    (∀ f ∈ db'.feedback, f.courseId ≠ c.id)) ∧
  (∀ l' ∈ db'.lessons, ∃ l₀ ∈ db.lessons,
    l' = lessonUnlink ((db.quizzes.filter
      (fun q => decide (q.teacherId = targetId))).map (·.id)) l₀)

/-- After stage 5(a)'s unlink, no lesson links any quiz in the purge
set. -/
theorem lessonUnlink_not_linked (quizIds : List Nat) (l : Lesson) (qid : Nat)
    (hqid : qid ∈ quizIds) : (lessonUnlink quizIds l).linkedQuizId ≠ some qid := by
  cases hlq : l.linkedQuizId with
  | none => simp [lessonUnlink, hlq]
  | some q0 =>
    by_cases hin : q0 ∈ quizIds
    · simp [lessonUnlink, hlq, hin]
    · simp [lessonUnlink, hlq, hin]
      intro heq
      exact hin (heq ▸ hqid)

/-- The staged deletion établit `claim1Post` on any store. -/
theorem adminDeleteUserApply_post (db : DB) (targetId : Nat) :
    claim1Post db targetId (adminDeleteUserApply db targetId) := by
  unfold claim1Post
  refine ⟨?_, ?_, ?_, ?_, ?_, ?_, ?_, ?_, ?_, ?_, ?_, ?_⟩
  · intro u hu
    have h2 := (List.mem_filter.mp hu).2
    simpa using h2
  · intro q hq
    have h2 := (List.mem_filter.mp hq).2
    simpa using h2
  · intro c hc
    have h2 := (List.mem_filter.mp hc).2
    simpa using h2
  · intro a ha
    have h2 := (List.mem_filter.mp (List.mem_filter.mp ha).1).2
    simpa using h2
  · intro p hp
    have h2 := (List.mem_filter.mp (List.mem_filter.mp hp).1).2
    simpa using h2
  · intro e he
    have h2 := (List.mem_filter.mp (List.mem_filter.mp he).1).2
    simpa using h2
  · intro m hm
    have h2 := (List.mem_filter.mp (List.mem_filter.mp hm).1).2
    simpa using h2
  · intro f hf
    have h2 := (List.mem_filter.mp (List.mem_filter.mp hf).1).2
    simpa using h2
  · intro e he het lp hlp
    have h2 := (List.mem_filter.mp (List.mem_filter.mp hlp).1).2
    rw [decide_eq_true_eq] at h2
    intro heq
    exact h2 (heq ▸ List.mem_map_of_mem (·.id) (List.mem_filter.mpr ⟨he, by simp [het]⟩))
  · intro q hq hqt
    refine ⟨?_, ?_, ?_, ?_⟩
    · intro qu hqu
      have h2 := (List.mem_filter.mp hqu).2
      rw [decide_eq_true_eq] at h2
      intro heq
      exact h2 (heq ▸ List.mem_map_of_mem (·.id) (List.mem_filter.mpr ⟨hq, by simp [hqt]⟩))
    · intro a ha
      have h2 := (List.mem_filter.mp ha).2
      rw [decide_eq_true_eq] at h2
      intro heq
      exact h2 (heq ▸ List.mem_map_of_mem (·.id) (List.mem_filter.mpr ⟨hq, by simp [hqt]⟩))
    · intro p hp
      have h2 := (List.mem_filter.mp hp).2
      rw [decide_eq_true_eq] at h2
      intro heq
      exact h2 (heq ▸ List.mem_map_of_mem (·.id) (List.mem_filter.mpr ⟨hq, by simp [hqt]⟩))
    · intro l hl
      have h1 := (List.mem_filter.mp hl).1
      obtain ⟨l₀, hl₀, hunl⟩ := List.mem_map.mp h1
      have hqin : q.id ∈ (db.quizzes.filter
          (fun q => decide (q.teacherId = targetId))).map (·.id) :=
        List.mem_map_of_mem (·.id) (List.mem_filter.mpr ⟨hq, by simp [hqt]⟩)
      rw [← hunl]
      exact lessonUnlink_not_linked _ l₀ q.id hqin
  · intro c hc hct
    have hcin : c.id ∈ (db.courses.filter
        (fun c => decide (c.teacherId = targetId))).map (·.id) :=
      List.mem_map_of_mem (·.id) (List.mem_filter.mpr ⟨hc, by simp [hct]⟩)
    refine ⟨?_, ?_, ?_, ?_⟩
    · intro l hl
      have h2 := (List.mem_filter.mp hl).2
      rw [decide_eq_true_eq] at h2
      intro heq
      exact h2 (heq ▸ hcin)
    · intro e he
      have h2 := (List.mem_filter.mp he).2
      rw [decide_eq_true_eq] at h2
      intro heq
      exact h2 (heq ▸ hcin)
    · intro m hm
      have h2 := (List.mem_filter.mp hm).2
      rw [decide_eq_true_eq] at h2
      intro heq
      exact h2 (heq ▸ hcin)
    · intro f hf
      have h2 := (List.mem_filter.mp hf).2
      rw [decide_eq_true_eq] at h2
      intro heq
      exact h2 (heq ▸ hcin)
  · intro l' hl'
    have h1 := (List.mem_filter.mp hl').1
    obtain ⟨l₀, hl₀, hunl⟩ := List.mem_map.mp h1
    exact ⟨l₀, hl₀, hunl.symm⟩

/-- C1: when the admin user-deletion endpoint succeeds, the resulting
store satisfies `claim1Post` — no surviving row references the deleted
user's id or the id of any quiz or course they owned, their enrollments'
LessonProgress is gone, quizzes and courses they owned are gone with
their dependents purged, and lessons that linked a deleted quiz are
unlinked with their quiz_code cleared. -/
theorem claim1_user_deletion (db : DB) (cur : User) (targetId : Nat) (db' : DB)
    (h : adminDeleteUserRun db cur targetId = .ok db') :
    claim1Post db targetId db' := by
  unfold adminDeleteUserRun at h
  split at h
  · simp at h
  · split at h
    · simp at h
    · split at h
      · simp at h
      · injection h with h'
        subst h'
        exact adminDeleteUserApply_post db targetId

/-- A fully populated store: teacher 2 (the deletion target) owns quiz 1
(with question 1/choice 1) and course 1; teacher 4 owns quiz 2 and
course 2; student 3 attempted and participated in both quizzes, and a
lesson of teacher 4's course links teacher 2's quiz; enrollments,
progress, messages and feedback cross both users' content. -/
def dbC1 : DB :=
  { users := [⟨1, .SUPER_ADMIN⟩, ⟨2, .TEACHER⟩, ⟨3, .STUDENT⟩, ⟨4, .TEACHER⟩],
    quizzes := [⟨1, 2, "QUIZA1"⟩, ⟨2, 4, "QUIZB2"⟩],
    questions := [⟨1, 1⟩, ⟨2, 2⟩],
    choices := [⟨1, 1⟩, ⟨2, 2⟩],
    attempts := [⟨1, 2, 2, 100, 5, 4, none, 0⟩, ⟨2, 1, 3, 200, 5, 5, some "Expert", 1⟩],
    participations := [⟨1, 1, 3⟩, ⟨2, 2, 2⟩],
    courses := [⟨1, 2, .PUBLISHED, some "CRSA0001"⟩, ⟨2, 4, .PUBLISHED, some "CRSB0002"⟩],
    lessons := [⟨1, 1, none, none⟩, ⟨2, 2, some 1, some "QUIZA1"⟩],
    enrollments := [⟨1, 3, 1, .ACTIVE, 0, 0, none⟩, ⟨2, 2, 2, .ACTIVE, 0, 0, none⟩,
      ⟨3, 3, 2, .ACTIVE, 0, 0, none⟩],
    lessonProgress := [⟨1, 1, 1, .COMPLETED, 10, some 0, some 1⟩,
      ⟨2, 2, 2, .IN_PROGRESS, 5, some 0, none⟩, ⟨3, 3, 2, .NOT_STARTED, 0, none, none⟩],
    messages := [⟨1, 2, 2⟩, ⟨2, 3, 1⟩],
    feedback := [⟨1, 3, 1⟩, ⟨2, 2, 2⟩] }

/-- C1 witness: deleting teacher 2 from the populated store through the
endpoint run by super admin 1 yields a store satisfying `claim1Post`. -/
theorem claim1_user_deletion_witness :
    claim1Post dbC1 2 (adminDeleteUserApply dbC1 2) :=
  claim1_user_deletion dbC1 ⟨1, .SUPER_ADMIN⟩ 2 (adminDeleteUserApply dbC1 2) rfl

end Zedny
